import Mathlib

set_option maxRecDepth 100000

/-!
# Verification of the Canvas→CalDAV sync engine

A shallow embedding, in Lean 4, of the core logic of the
`canvas-to-caldav-tasks` repository: the content-fingerprint function
(`compute_item_hash`, an MD5 digest truncated to 16 hex characters), the
iCalendar record builders (`assignment_to_vtodo`, `update_vtodo`,
`no_class_to_vevent`, `update_vevent`), the classifier helpers of
`canvas.py`, the existing-record index of `caldav_client.py`, and the
reconciliation loop of `sync.py`.

Conventions of the embedding:
* Python dictionaries with optional keys become structures with `Option`
  fields; `d.get(k, default)` becomes `Option.getD`; Python truthiness of a
  string value (`if d.get(k):`) is "present and nonempty".
* `datetime.now(timezone.utc)` becomes an explicit `now : DTv` parameter,
  so every function is pure.
* The CalDAV store is a list of records; `save_*` appends, `delete` removes
  the indexed record occurrence; per-item write failures (Python
  exceptions raised by the caldav library) are driven by an explicit
  oracle, keyed by the UID of the record being deleted or saved.
* Console output is not modelled; the per-item outcome values play the
  role of the per-item status messages, and the numeric counters of the
  summary are derived by counting outcomes.
-/

/-! ## MD5 (RFC 1321), over byte lists, arithmetic on `Nat` modulo 2^32 -/

def M32 : Nat := 4294967296

def add32 (a b : Nat) : Nat := (a + b) % M32

def not32 (a : Nat) : Nat := Nat.xor a 4294967295

def rotl32 (x s : Nat) : Nat :=
  ((Nat.shiftLeft x s) % M32) + (Nat.shiftRight x (32 - s))

/-- The 64 MD5 sine-derived constants `floor(2^32 * |sin(i+1)|)`. -/
def md5K : List Nat :=
  [3614090360, 3905402710, 606105819, 3250441966, 4118548399, 1200080426,
   2821735955, 4249261313, 1770035416, 2336552879, 4294925233, 2304563134,
   1804603682, 4254626195, 2792965006, 1236535329, 4129170786, 3225465664,
   643717713, 3921069994, 3593408605, 38016083, 3634488961, 3889429448,
   568446438, 3275163606, 4107603335, 1163531501, 2850285829, 4243563512,
   1735328473, 2368359562, 4294588738, 2272392833, 1839030562, 4259657740,
   2763975236, 1272893353, 4139469664, 3200236656, 681279174, 3936430074,
   3572445317, 76029189, 3654602809, 3873151461, 530742520, 3299628645,
   4096336452, 1126891415, 2878612391, 4237533241, 1700485571, 2399980690,
   4293915773, 2240044497, 1873313359, 4264355552, 2734768916, 1309151649,
   4149444226, 3174756917, 718787259, 3951481745]

/-- The per-round left-rotation amounts. -/
def md5S : List Nat :=
  [7, 12, 17, 22, 7, 12, 17, 22, 7, 12, 17, 22, 7, 12, 17, 22,
   5, 9, 14, 20, 5, 9, 14, 20, 5, 9, 14, 20, 5, 9, 14, 20,
   4, 11, 16, 23, 4, 11, 16, 23, 4, 11, 16, 23, 4, 11, 16, 23,
   6, 10, 15, 21, 6, 10, 15, 21, 6, 10, 15, 21, 6, 10, 15, 21]

/-- Split a padded message into the sixteen 32-bit little-endian words of
one 64-byte block. -/
def md5Words (block : List Nat) : List Nat :=
  match block with
  | b0 :: b1 :: b2 :: b3 :: rest =>
      (b0 + b1 * 256 + b2 * 65536 + b3 * 16777216) :: md5Words rest
  | _ => []

def md5F (i b c d : Nat) : Nat :=
  if i < 16 then Nat.lor (Nat.land b c) (Nat.land (not32 b) d)
  else if i < 32 then Nat.lor (Nat.land d b) (Nat.land (not32 d) c)
  else if i < 48 then Nat.xor b (Nat.xor c d)
  else Nat.xor c (Nat.lor b (not32 d))

def md5G (i : Nat) : Nat :=
  if i < 16 then i
  else if i < 32 then (5 * i + 1) % 16
  else if i < 48 then (3 * i + 5) % 16
  else (7 * i) % 16

/-- One block's 64 rounds, by recursion on the remaining round count. -/
def md5Rounds (m : List Nat) : Nat → (Nat × Nat × Nat × Nat) → (Nat × Nat × Nat × Nat)
  | 0, st => st
  | n + 1, (a, b, c, d) =>
      let i := 64 - (n + 1)
      let f := add32 (add32 (md5F i b c d) a)
                 (add32 (md5K.getD i 0) (m.getD (md5G i) 0))
      md5Rounds m n (d, add32 b (rotl32 f (md5S.getD i 0)), b, c)

/-- Compress one 64-byte block into the running state. -/
def md5Compress (st : Nat × Nat × Nat × Nat) (block : List Nat) : Nat × Nat × Nat × Nat :=
  match st with
  | (a0, b0, c0, d0) =>
    let (a, b, c, d) := md5Rounds (md5Words block) 64 (a0, b0, c0, d0)
    (add32 a0 a, add32 b0 b, add32 c0 c, add32 d0 d)

/-- Process `n` 64-byte blocks of an already padded message. -/
def md5Blocks : Nat → List Nat → (Nat × Nat × Nat × Nat) → (Nat × Nat × Nat × Nat)
  | 0, _, st => st
  | n + 1, msg, st => md5Blocks n (msg.drop 64) (md5Compress st (msg.take 64))

/-- MD5 padding: append 0x80, zero-pad to 56 mod 64, then the original
bit length as a 64-bit little-endian quantity. -/
def md5Pad (msg : List Nat) : List Nat :=
  let len := msg.length
  let padLen := (119 - (len % 64)) % 64 + 1
  let bitLen := (len * 8) % (2 ^ 64)
  msg ++ [128] ++ List.replicate (padLen - 1) 0 ++
    (List.range 8).map (fun i => (Nat.shiftRight bitLen (8 * i)) % 256)

/-- Little-endian bytes of one 32-bit word. -/
def wordBytes (w : Nat) : List Nat :=
  [w % 256, (w / 256) % 256, (w / 65536) % 256, (w / 16777216) % 256]

def hexDigit (n : Nat) : Char :=
  if n < 10 then Char.ofNat (48 + n) else Char.ofNat (87 + n)

def byteHex (b : Nat) : List Char := [hexDigit (b / 16), hexDigit (b % 16)]

/-- The full MD5 hex digest (32 lowercase hex characters) of a byte list,
as a character list. -/
def md5HexChars (msg : List Nat) : List Char :=
  let padded := md5Pad msg
  let (a, b, c, d) :=
    md5Blocks (padded.length / 64) padded (1732584193, 4023233417, 2562383102, 271733878)
  ((wordBytes a ++ wordBytes b ++ wordBytes c ++ wordBytes d).map byteHex).flatten

def md5Hex (msg : List Nat) : String := String.mk (md5HexChars msg)

/-- UTF-8 encoding of one code point (Python `str.encode()`). -/
def utf8Char (n : Nat) : List Nat :=
  if n < 128 then [n]
  else if n < 2048 then [192 + n / 64, 128 + n % 64]
  else if n < 65536 then [224 + n / 4096, 128 + (n / 64) % 64, 128 + n % 64]
  else [240 + n / 262144, 128 + (n / 4096) % 64, 128 + (n / 64) % 64, 128 + n % 64]

def utf8Bytes (s : String) : List Nat :=
  (s.data.map (fun c => utf8Char c.toNat)).flatten

/-! ## Data model

`DTv` models the `.dt` payload of an icalendar `vDDDTypes` value: either a
date or a (UTC) datetime.  `pystr_dt` is Python's `str()` rendering used in
the fingerprint content (timezone suffix of aware datetimes is not
modelled; no claim depends on the exact rendering).

`Item` models the loosely-typed `item_info` dictionaries of `canvas.py`:
absent dictionary keys are `none`.  `d.get(k, "")` is `Option.getD ""` and
Python string truthiness `if d.get(k):` is "present and nonempty". -/

inductive DTv where
  | d (y m day : Nat)
  | dt (y m day h mi s : Nat)
deriving DecidableEq, Repr

def pad2 (n : Nat) : String := if n < 10 then "0" ++ toString n else toString n

def pad4 (n : Nat) : String :=
  if n < 10 then "000" ++ toString n
  else if n < 100 then "00" ++ toString n
  else if n < 1000 then "0" ++ toString n
  else toString n

def pystr_dt : DTv → String
  | .d y m day => pad4 y ++ "-" ++ pad2 m ++ "-" ++ pad2 day
  | .dt y m day h mi s =>
      pad4 y ++ "-" ++ pad2 m ++ "-" ++ pad2 day ++ " " ++
      pad2 h ++ ":" ++ pad2 mi ++ ":" ++ pad2 s

structure Item where
  uid : String
  summary : Option String
  dtstart : Option DTv
  dtend : Option DTv
  description : Option String
  url : Option String
  location : Option String
  course_id : Option String
  type_tag : Option String
deriving DecidableEq, Repr

/-- Python truthiness of an optional string: present and nonempty. -/
def strTruthy : Option String → Bool
  | none => false
  | some s => s ≠ ""

/-! ## `ical_helpers.py` -/

/-- `compute_item_hash` (ical_helpers.py:8-28): concatenate the
source-significant fields with `|` separators, optional fields marked with
`start:`/`end:`/`course_id:`/`type_tag:` prefixes and included only when
truthy, then MD5, hex, first 16 characters. -/
def compute_item_hash (item : Item) : String :=
  let content := item.summary.getD ""
  let content := content ++ "|" ++ item.description.getD ""
  let content := content ++ "|" ++ item.url.getD ""
  let content := content ++ "|" ++ item.location.getD ""
  let content := match item.dtstart with
    | some v => content ++ "|start:" ++ pystr_dt v
    | none => content
  let content := match item.dtend with
    | some v => content ++ "|end:" ++ pystr_dt v
    | none => content
  let content := match item.course_id with
    | some c => if c = "" then content else content ++ "|course_id:" ++ c
    | none => content
  let content := match item.type_tag with
    | some t => if t = "" then content else content ++ "|type_tag:" ++ t
    | none => content
  String.mk ((md5HexChars (utf8Bytes content)).take 16)

/-- The `content` string of `compute_item_hash` before hashing (factored
out so that digest equalities can be proved by congruence). -/
def hashContent (item : Item) : String :=
  let content := item.summary.getD ""
  let content := content ++ "|" ++ item.description.getD ""
  let content := content ++ "|" ++ item.url.getD ""
  let content := content ++ "|" ++ item.location.getD ""
  let content := match item.dtstart with
    | some v => content ++ "|start:" ++ pystr_dt v
    | none => content
  let content := match item.dtend with
    | some v => content ++ "|end:" ++ pystr_dt v
    | none => content
  let content := match item.course_id with
    | some c => if c = "" then content else content ++ "|course_id:" ++ c
    | none => content
  match item.type_tag with
  | some t => if t = "" then content else content ++ "|type_tag:" ++ t
  | none => content

theorem compute_item_hash_eq_content (item : Item) :
    compute_item_hash item = String.mk ((md5HexChars (utf8Bytes (hashContent item))).take 16) := rfl

/-- `create_uid` (ical_helpers.py:31-33). -/
def create_uid (canvas_uid : String) (pre : String) : String :=
  "canvas-" ++ pre ++ "-" ++ canvas_uid

/-- A VTODO component as assembled by the builders (and as read back from
the store); fields that a parsed component may lack are `Option`. -/
structure VTodo where
  uid : String
  summary : String
  due : Option DTv
  description : Option String
  url : Option String
  dtstamp : Option DTv
  created : Option DTv
  last_modified : Option DTv
  status : Option String
  priority : Option Int
  percent_complete : Option Int
  completed : Option DTv
  x_canvas_hash : Option String
  categories : List String
deriving DecidableEq, Repr

/-- A VEVENT component, likewise. -/
structure VEvent where
  uid : String
  summary : String
  dtstart : Option DTv
  dtend : Option DTv
  description : Option String
  url : Option String
  dtstamp : Option DTv
  created : Option DTv
  last_modified : Option DTv
  x_canvas_hash : Option String
  categories : List String
deriving DecidableEq, Repr

/-- The DESCRIPTION text built by both todo builders: the source
description, with `\nCanvas: <url>` appended when a URL is present;
absent when both parts are empty. -/
def buildDescription (item : Item) : Option String :=
  let parts : List String :=
    (if item.description.getD "" ≠ "" then [item.description.getD ""] else []) ++
    (if item.url.getD "" ≠ "" then ["\nCanvas: " ++ item.url.getD ""] else [])
  if parts = [] then none else some (String.intercalate "\n" parts)

/-- The CATEGORIES list shared by both todo builders: course id then type
tag, each when truthy. -/
def buildCategories (item : Item) : List String :=
  (match item.course_id with
   | some c => if c = "" then [] else [c]
   | none => []) ++
  (match item.type_tag with
   | some t => if t = "" then [] else [t]
   | none => [])

/-- `assignment_to_vtodo` (ical_helpers.py:36-76); `now` stands for
`datetime.now(timezone.utc)`.  Python reads `assignment["summary"]` etc.
by direct indexing (classifier-produced items always carry these keys);
the embedding uses `Option.getD ""` for totality. -/
def assignment_to_vtodo (assignment : Item) (content_hash : String) (now : DTv) :
    VTodo × String :=
  let task_uid := create_uid assignment.uid "task"
  ({ uid := task_uid
     summary := assignment.summary.getD ""
     due := assignment.dtend.or assignment.dtstart
     description := buildDescription assignment
     url := if assignment.url.getD "" ≠ "" then some (assignment.url.getD "") else none
     dtstamp := some now
     created := some now
     last_modified := some now
     status := some "NEEDS-ACTION"
     priority := some 5
     percent_complete := none
     completed := none
     x_canvas_hash := some content_hash
     categories := buildCategories assignment }, task_uid)

/-- `update_vtodo` (ical_helpers.py:79-136): rebuilds the task from the new
source item while copying forward from `existing_component` the creation
timestamp (when present), the status (default `NEEDS-ACTION`), the
percent-complete (when truthy — a stored 0 is falsy and dropped) and the
completion timestamp (when present).  Priority is unconditionally 5. -/
def update_vtodo (existing_component : VTodo) (assignment : Item)
    (content_hash : String) (now : DTv) : VTodo :=
  { uid := create_uid assignment.uid "task"
    summary := assignment.summary.getD ""
    due := assignment.dtend.or assignment.dtstart
    description := buildDescription assignment
    url := if assignment.url.getD "" ≠ "" then some (assignment.url.getD "") else none
    dtstamp := some now
    created := match existing_component.created with
      | some c => some c
      | none => some now
    last_modified := some now
    status := some (existing_component.status.getD "NEEDS-ACTION")
    priority := some 5
    percent_complete := match existing_component.percent_complete with
      | some p => if p = 0 then none else some p
      | none => none
    completed := existing_component.completed
    x_canvas_hash := some content_hash
    categories := buildCategories assignment }

/-- `no_class_to_vevent` (ical_helpers.py:139-172). -/
def no_class_to_vevent (item : Item) (content_hash : String) (now : DTv) :
    VEvent × String :=
  let event_uid := create_uid item.uid "event"
  ({ uid := event_uid
     summary := item.summary.getD ""
     dtstart := item.dtstart
     dtend := item.dtend
     description := if item.description.getD "" ≠ "" then some (item.description.getD "") else none
     url := if item.url.getD "" ≠ "" then some (item.url.getD "") else none
     dtstamp := some now
     created := some now
     last_modified := some now
     x_canvas_hash := some content_hash
     categories := match item.course_id with
       | some c => if c = "" then [] else [c]
       | none => [] }, event_uid)

/-- `update_vevent` (ical_helpers.py:175-213): as `no_class_to_vevent`, but
the creation timestamp is copied from the existing component when
present. -/
def update_vevent (existing_component : VEvent) (item : Item)
    (content_hash : String) (now : DTv) : VEvent :=
  { uid := create_uid item.uid "event"
    summary := item.summary.getD ""
    dtstart := item.dtstart
    dtend := item.dtend
    description := if item.description.getD "" ≠ "" then some (item.description.getD "") else none
    url := if item.url.getD "" ≠ "" then some (item.url.getD "") else none
    dtstamp := some now
    created := match existing_component.created with
      | some c => some c
      | none => some now
    last_modified := some now
    x_canvas_hash := some content_hash
    categories := match item.course_id with
      | some c => if c = "" then [] else [c]
      | none => [] }

/-! ## `canvas.py` -/

/-- Python's `str.lower()` (character-wise lowering; equivalent to
`String.toLower`, but defined on the character list so that it reduces
inside the kernel). -/
def pyLower (s : String) : String := String.mk (s.data.map Char.toLower)

/-- Substring test of Python's `in` on lists of characters (an empty
needle is contained in everything). -/
def containsSubAux : List Char → List Char → Bool
  | [], sub => sub.isEmpty
  | c :: t, sub => sub.isPrefixOf (c :: t) || containsSubAux t sub

/-- `matches_keywords` (canvas.py:59-64): case-insensitive substring
containment of any keyword; an empty keyword list matches nothing. -/
def matches_keywords (text : String) (keywords : List String) : Bool :=
  if keywords = [] then false
  else keywords.any (fun k => containsSubAux (pyLower text).data (pyLower k).data)

/-! ### `extract_course_id_from_summary` (canvas.py:67-75)

A specialised backtracking matcher for the fixed pattern
`\[([A-Z0-9-]+)(?:-\d{2})? [^\]]+\]` with `re.search` semantics: the
leftmost starting position wins, the greedy `+` yields the longest
group first and gives characters back one at a time, and the greedy `?`
tries the section-suffix branch before the empty branch. -/

def isClassChar (c : Char) : Bool :=
  ('A' ≤ c && c ≤ 'Z') || ('0' ≤ c && c ≤ '9') || c == '-'

def isDigitCh (c : Char) : Bool := '0' ≤ c && c ≤ '9'

/-- Maximal run of `[A-Z0-9-]` characters and the remainder. -/
def takeClassRun : List Char → List Char × List Char
  | [] => ([], [])
  | c :: cs =>
      if isClassChar c then
        let (r, rest) := takeClassRun cs
        (c :: r, rest)
      else ([], c :: cs)

/-- Scan for the closing `]` after at least one `[^\]]` character has been
consumed. -/
def closeBracket : List Char → Bool
  | [] => false
  | c :: cs => if c = ']' then true else closeBracket cs

/-- Match ` [^\]]+\]`. -/
def tailMatch : List Char → Bool
  | ' ' :: c :: cs => if c = ']' then false else closeBracket cs
  | _ => false

/-- Match `(?:-\d{2})?` (greedy: suffix branch first) followed by
` [^\]]+\]`. -/
def optSectionThenTail (leftover : List Char) : Bool :=
  match leftover with
  | '-' :: a :: b :: r2 =>
      (isDigitCh a && isDigitCh b && tailMatch r2) || tailMatch leftover
  | _ => tailMatch leftover

/-- Backtracking over the group length: `revPre` is the reversed current
group candidate (tried longest first), `leftover` what follows it. -/
def tryGroupAux : List Char → List Char → Option (List Char)
  | [], _ => none
  | c :: revPre, leftover =>
      if optSectionThenTail leftover then some (c :: revPre).reverse
      else tryGroupAux revPre (c :: leftover)

/-- Try a full-pattern match starting exactly at this position. -/
def matchCourseAt : List Char → Option String
  | '[' :: rest =>
      let (run, rest2) := takeClassRun rest
      (tryGroupAux run.reverse rest2).map String.mk
  | _ => none

def searchCourse : List Char → Option String
  | [] => none
  | c :: cs =>
      match matchCourseAt (c :: cs) with
      | some g => some g
      | none => searchCourse cs

def extract_course_id_from_summary (summary : String) : Option String :=
  searchCourse summary.data

/-! ### `get_assignment_type_tag` (canvas.py:78-86) -/

/-- `ASSIGNMENT_TYPE_KEYWORDS` (canvas.py:12-23), in dictionary insertion
order. -/
def ASSIGNMENT_TYPE_KEYWORDS : List (String × List String) :=
  [("Practical", ["practical"]),
   ("Exam", ["exam", "midterm", "final", "test"]),
   ("Essay", ["essay", "paper", "report"]),
   ("Lab", ["lab"]),
   ("Presentation", ["presentation", "slides"]),
   ("Discussion", ["discussion"]),
   ("Project", ["project"]),
   ("Quiz", ["quiz"])]

def DEFAULT_ASSIGNMENT_TYPE_TAG : String := "Assignment"

/-- Python's `\w` (ASCII range; all inputs here are ASCII). -/
def isWordChar (c : Char) : Bool := c.isAlphanum || c == '_'

def headIsWord : List Char → Bool
  | [] => false
  | c :: _ => isWordChar c

/-- `\b<kw>\b` anchored at the current position; `prev` is the
word-character status of the preceding character (`false` at the start of
the text). -/
def matchWWHere (prev : Bool) (t kw : List Char) : Bool :=
  (prev != headIsWord t) && kw.isPrefixOf t &&
  ((match kw.getLast? with
    | some c => isWordChar c
    | none => prev) != headIsWord (t.drop kw.length))

def hasWWAux (kw : List Char) : Bool → List Char → Bool
  | prev, [] => matchWWHere prev [] kw
  | prev, c :: t2 => matchWWHere prev (c :: t2) kw || hasWWAux kw (isWordChar c) t2

/-- `re.search(r"\b" + re.escape(keyword) + r"\b", text)` as a Boolean
(the keywords contain no regex metacharacters, so `re.escape` is the
identity). -/
def hasWholeWord (text kw : String) : Bool := hasWWAux kw.data false text.data

/-- `get_assignment_type_tag`: first table entry with a whole-word match
in the lowercased summary wins; otherwise the default tag. -/
def get_assignment_type_tag (summary : String) : String :=
  let summary_lower := pyLower summary
  match ASSIGNMENT_TYPE_KEYWORDS.find? (fun p => p.2.any (fun k => hasWholeWord summary_lower k)) with
  | some p => p.1
  | none => DEFAULT_ASSIGNMENT_TYPE_TAG

/-! ### date filtering and per-item classification (canvas.py:27-56, 121-165) -/

/-- `get_item_date` (canvas.py:27-40): the calendar date of `dtstart.dt`,
for date and datetime values alike. -/
def get_item_date (item : Item) : Option (Nat × Nat × Nat) :=
  match item.dtstart with
  | none => none
  | some (.d y m day) => some (y, m, day)
  | some (.dt y m day _ _ _) => some (y, m, day)

/-- Calendar order on (year, month, day). -/
def dateLe (a b : Nat × Nat × Nat) : Bool :=
  a.1 < b.1 || (a.1 = b.1 && (a.2.1 < b.2.1 || (a.2.1 = b.2.1 && a.2.2 ≤ b.2.2)))

/-- `is_within_date_range` (canvas.py:43-56): no cutoff or no item date
means in range; otherwise the item date must not exceed the cutoff. -/
def is_within_date_range (item : Item) (end_date : Option (Nat × Nat × Nat)) : Bool :=
  match end_date with
  | none => true
  | some ed =>
      match get_item_date item with
      | none => true
      | some d0 => dateLe d0 ed

/-- The `[sync]` configuration slice consumed by `fetch_canvas_items`
(canvas.py:94-101), with the cutoff date already parsed. -/
structure SyncConfig where
  no_class_keywords : List String
  assignment_keywords : List String
  assignment_summary_keywords : List String
  end_date : Option (Nat × Nat × Nat)
deriving Repr

def default_no_class_keywords : List String :=
  ["no classes", "no school", "holiday", "break"]

def default_assignment_keywords : List String := ["assignment"]

inductive Category where
  | FilteredOut
  | NoClass
  | Assignment
  | Skipped
deriving DecidableEq, Repr

/-- The `item_info` dictionary as assembled in the VEVENT loop
(canvas.py:128-141): the course id is attached when the extractor
returns a truthy value. -/
def build_item_info (uid summary : String) (dtstart dtend : Option DTv)
    (description url location : String) : Item :=
  { uid := uid
    summary := some summary
    dtstart := dtstart
    dtend := dtend
    description := some description
    url := some url
    location := some location
    course_id := match extract_course_id_from_summary summary with
      | some c => if c = "" then none else some c
      | none => none
    type_tag := none }

/-- The classification branch of the loop body (canvas.py:143-161), in
source order: date filter, then no-class keywords, then extracted course
id, then UID/summary assignment keywords, else skipped. -/
def classify_item (cfg : SyncConfig) (info : Item) : Category :=
  if !(is_within_date_range info cfg.end_date) then .FilteredOut
  else if matches_keywords (info.summary.getD "") cfg.no_class_keywords then .NoClass
  else if strTruthy info.course_id then .Assignment
  else if matches_keywords info.uid cfg.assignment_keywords
       || matches_keywords (info.summary.getD "") cfg.assignment_summary_keywords then .Assignment
  else .Skipped

/-- Lines 163-165: items appended to `assignments` additionally receive a
type tag computed from the summary. -/
def classify_and_tag (cfg : SyncConfig) (info : Item) : Category × Item :=
  let c := classify_item cfg info
  (c,
   if c = .Assignment then
     { info with type_tag := some (get_assignment_type_tag (info.summary.getD "")) }
   else info)

/-! ## `caldav_client.py` and `sync.py`

The CalDAV store of one kind (task-like or event-like) is a list of
records.  `get_existing_items` (caldav_client.py:42-89) builds a Python
dict keyed by the (nonempty) UID of each record, later records
overwriting earlier ones, and stores with each the record's
`X-CANVAS-HASH` (default `""`) and the object handle used for deletion;
looking up a uid therefore yields the last record in store order bearing
it.  `sync.py` reads both indices once, then walks the classified items:
an indexed record with an equal fingerprint is left alone; a differing
one is deleted and re-created; an unindexed item is created.  The
delete/create calls can raise; the exception is caught per item
(sync.py:126-146, 176-196).  Which call raises is driven by an explicit
`Oracle`, keyed by the UID of the record being deleted or saved. -/

inductive Outcome where
  | unchanged
  | updated
  | added
  | updateFailed
  | addFailed
deriving DecidableEq, Repr

structure Oracle where
  deleteFails : String → Bool
  saveFails : String → Bool

def noFailOracle : Oracle := ⟨fun _ => false, fun _ => false⟩

inductive StoreOp (R : Type) where
  | del (r : R)
  | save (r : R)
deriving DecidableEq, Repr

/-- The per-kind operations the generic loop is instantiated with: UID
and stored-fingerprint projections, the destination UID of an item, and
the two record builders. -/
structure StoreIface (R : Type) where
  uidr : R → String
  xhash : R → Option String
  mkuid : Item → String
  buildNew : Item → String → R
  buildUpd : R → Item → String → R

/-- Dict lookup of `get_existing_items`: the last record in store order
whose UID is `u` (records with empty UID are never indexed). -/
def lookupExisting {R : Type} (uidr : R → String) (store : List R) (u : String) :
    Option R :=
  if u = "" then none else (store.filter (fun t => uidr t = u)).getLast?

/-- `object.delete()`: remove the indexed record occurrence. -/
def removeFirst {R : Type} [DecidableEq R] : List R → R → List R
  | [], _ => []
  | t :: ts, e => if t = e then ts else t :: removeFirst ts e

/-- One iteration of a sync loop (sync.py:100-146 / 150-196): compute the
destination UID and fresh fingerprint, then no-op, delete-and-recreate,
or create; each store call may raise, caught at this item's scope.
Returns the outcome, the store operations that took effect, and the
resulting store. -/
def processItem {R : Type} [DecidableEq R] (ifc : StoreIface R) (index : List R)
    (oracle : Oracle) (store : List R) (a : Item) :
    Outcome × List (StoreOp R) × List R :=
  let item_uid := ifc.mkuid a
  let content_hash := compute_item_hash a
  match lookupExisting ifc.uidr index item_uid with
  | some existing =>
      if (ifc.xhash existing).getD "" = content_hash then (.unchanged, [], store)
      else
        let updatedRec := ifc.buildUpd existing a content_hash
        if oracle.deleteFails (ifc.uidr existing) then (.updateFailed, [], store)
        else if oracle.saveFails (ifc.uidr updatedRec) then
          (.updateFailed, [.del existing], removeFirst store existing)
        else
          (.updated, [.del existing, .save updatedRec],
           removeFirst store existing ++ [updatedRec])
  | none =>
      let newRec := ifc.buildNew a content_hash
      if oracle.saveFails (ifc.uidr newRec) then (.addFailed, [], store)
      else (.added, [.save newRec], store ++ [newRec])

/-- One whole sync loop over the classified items of one kind; the index
is the one read before the loop and is never refreshed. -/
def syncLoop {R : Type} [DecidableEq R] (ifc : StoreIface R) (index : List R)
    (oracle : Oracle) : List Item → List R → List Outcome × List (StoreOp R) × List R
  | [], store => ([], [], store)
  | a :: rest, store =>
      let (o, ops, s1) := processItem ifc index oracle store a
      let (os, ops2, s2) := syncLoop ifc index oracle rest s1
      (o :: os, ops ++ ops2, s2)

/-- The outcome of one item, as a function of the index, the oracle and
the item alone. -/
def itemOutcome {R : Type} (ifc : StoreIface R) (index : List R) (oracle : Oracle)
    (a : Item) : Outcome :=
  match lookupExisting ifc.uidr index (ifc.mkuid a) with
  | some existing =>
      if (ifc.xhash existing).getD "" = compute_item_hash a then .unchanged
      else if oracle.deleteFails (ifc.uidr existing) then .updateFailed
      else if oracle.saveFails (ifc.uidr (ifc.buildUpd existing a (compute_item_hash a))) then
        .updateFailed
      else .updated
  | none =>
      if oracle.saveFails (ifc.uidr (ifc.buildNew a (compute_item_hash a))) then .addFailed
      else .added

def taskUid (a : Item) : String := create_uid a.uid "task"

def eventUid (a : Item) : String := create_uid a.uid "event"

/-- The task-kind instantiation of the loop interface (sync.py:100-146). -/
def taskIface (now : DTv) : StoreIface VTodo :=
  { uidr := VTodo.uid
    xhash := VTodo.x_canvas_hash
    mkuid := taskUid
    buildNew := fun a h => (assignment_to_vtodo a h now).1
    buildUpd := fun e a h => update_vtodo e a h now }

/-- The event-kind instantiation of the loop interface (sync.py:150-196). -/
def eventIface (now : DTv) : StoreIface VEvent :=
  { uidr := VEvent.uid
    xhash := VEvent.x_canvas_hash
    mkuid := eventUid
    buildNew := fun a h => (no_class_to_vevent a h now).1
    buildUpd := fun e a h => update_vevent e a h now }

structure SyncReport where
  taskOutcomes : List Outcome
  eventOutcomes : List Outcome
  taskOps : List (StoreOp VTodo)
  eventOps : List (StoreOp VEvent)
  todoStore : List VTodo
  eventStore : List VEvent

/-- `sync_to_caldav` (sync.py:80-219): read both indices once, then sync
assignments as tasks and no-class items as events.  The change
descriptions of `detect_changes` (sync.py:16-77) and all console output
are diagnostic only and not modelled; the summary counters are the
outcome counts. -/
def sync_to_caldav (assignments no_class_events : List Item) (oracle : Oracle)
    (now : DTv) (todoStore : List VTodo) (eventStore : List VEvent) : SyncReport :=
  let tRes := syncLoop (taskIface now) todoStore oracle assignments todoStore
  let eRes := syncLoop (eventIface now) eventStore oracle no_class_events eventStore
  { taskOutcomes := tRes.1
    eventOutcomes := eRes.1
    taskOps := tRes.2.1
    eventOps := eRes.2.1
    todoStore := tRes.2.2
    eventStore := eRes.2.2 }

def tasks_added (r : SyncReport) : Nat := r.taskOutcomes.count .added
def tasks_updated (r : SyncReport) : Nat := r.taskOutcomes.count .updated
def tasks_unchanged (r : SyncReport) : Nat := r.taskOutcomes.count .unchanged
def events_added (r : SyncReport) : Nat := r.eventOutcomes.count .added
def events_updated (r : SyncReport) : Nat := r.eventOutcomes.count .updated
def events_unchanged (r : SyncReport) : Nat := r.eventOutcomes.count .unchanged

/-! ## Shared helper lemmas -/

theorem getLast?_mem_self {α : Type} {l : List α} {e : α} (h : l.getLast? = some e) :
    e ∈ l := by
  have h2 : e ∈ l.getLast? := by rw [h]; rfl
  obtain ⟨hne, heq⟩ := List.mem_getLast?_eq_getLast h2
  rw [heq]; exact List.getLast_mem hne

theorem lookupExisting_uid {R : Type} (uidr : R → String) (store : List R) (u : String)
    (e : R) (h : lookupExisting uidr store u = some e) : uidr e = u := by
  unfold lookupExisting at h
  split at h
  · exact absurd h (by simp)
  · have hm := getLast?_mem_self h
    have := List.mem_filter.mp hm
    simpa using this.2

theorem create_uid_ne_empty (c p : String) : create_uid c p ≠ "" := by
  unfold create_uid
  intro h
  have h2 := congrArg String.length h
  simp [String.length_append] at h2
  exact absurd h2.1.1.1 (by decide)

/-! ## C7 theorem -/

/-- C7: the fingerprint is a deterministic pure function of exactly the
eight source-significant fields: any two items agreeing on title,
description, URL, location, start, end, course id and type tag receive
the same digest (in particular it is independent of the source UID, and
no destination-owned value — completion, priority, timestamps — is among
its inputs, the item record carrying none of them). -/
theorem fingerprint_depends_only_on_significant_fields (i1 i2 : Item)
    (hs : i1.summary = i2.summary) (hd : i1.description = i2.description)
    (hu : i1.url = i2.url) (hl : i1.location = i2.location)
    (hds : i1.dtstart = i2.dtstart) (hde : i1.dtend = i2.dtend)
    (hc : i1.course_id = i2.course_id) (ht : i1.type_tag = i2.type_tag) :
    compute_item_hash i1 = compute_item_hash i2 := by
  unfold compute_item_hash
  rw [hs, hd, hu, hl, hds, hde, hc, ht]

/-- Witness for C7: two items identical in the eight significant fields
but with different source UIDs hash identically. -/
theorem fingerprint_depends_only_on_significant_fields_witness :
    compute_item_hash ⟨"uid-one", some "T", none, none, some "D", some "U", some "L", some "C", some "Quiz"⟩ =
      compute_item_hash ⟨"uid-two", some "T", none, none, some "D", some "U", some "L", some "C", some "Quiz"⟩ :=
  fingerprint_depends_only_on_significant_fields _ _ rfl rfl rfl rfl rfl rfl rfl rfl

/-! ## C3: corrected -/

/-- Counterexample to C3: the claim asserts that an omitted field and an
empty-valued field produce different digests; for the description field
(as for every string field) they produce the same digest, because
`item.get("description", "")` yields `""` in both cases. -/
theorem absent_and_empty_description_share_digest :
    compute_item_hash ⟨"u", some "T", none, none, none, some "", some "", none, none⟩ =
      compute_item_hash ⟨"u", some "T", none, none, some "", some "", some "", none, none⟩ ∧
    (none : Option String) ≠ some "" := by
  exact ⟨rfl, by simp⟩

/-- C3 amended: for every string-valued fingerprinted field (title,
description, URL, location, course id, type tag), omitting the field and
setting it to the empty string produce the SAME digest — the encoding
does not disambiguate absence from emptiness.  (Only the start/end
fields, which have no empty value, are marked by presence prefixes.) -/
theorem fingerprint_absent_eq_empty (item : Item) :
    compute_item_hash { item with summary := none } =
      compute_item_hash { item with summary := some "" } ∧
    compute_item_hash { item with description := none } =
      compute_item_hash { item with description := some "" } ∧
    compute_item_hash { item with url := none } =
      compute_item_hash { item with url := some "" } ∧
    compute_item_hash { item with location := none } =
      compute_item_hash { item with location := some "" } ∧
    compute_item_hash { item with course_id := none } =
      compute_item_hash { item with course_id := some "" } ∧
    compute_item_hash { item with type_tag := none } =
      compute_item_hash { item with type_tag := some "" } :=
  ⟨rfl, rfl, rfl, rfl, rfl, rfl⟩

/-! ## C10: corrected -/

/-- Counterexample to C10's example pair: an item with title `"a|b"` and
empty description does NOT collide with an item with title `"a"` and
description `"b"` — the empty description still contributes its `|`
separator, so the contents are `"a|b|||"` and `"a|b||"`. -/
theorem claimed_pipe_collision_pair_differs :
    compute_item_hash ⟨"u", some "a|b", none, none, some "", some "", some "", none, none⟩ ≠
      compute_item_hash ⟨"u", some "a", none, none, some "b", some "", some "", none, none⟩ := by
  decide

/-- C10 amended: the fingerprint is indeed not injective over the
source-significant fields because of the unescaped `|` separator, but a
correct example is title `"a|b"` with description `"c"` against title
`"a"` with description `"b|c"`: both contents are `"a|b|c||"`. -/
theorem pipe_separator_collision_exists :
    compute_item_hash ⟨"u", some "a|b", none, none, some "c", some "", some "", none, none⟩ =
      compute_item_hash ⟨"u", some "a", none, none, some "b|c", some "", some "", none, none⟩ ∧
    (some "a|b" : Option String) ≠ some "a" := by
  exact ⟨rfl, by simp⟩

/-! ## C4: code bug -/

/-- C4: evaluating the extractor at the spec's own example shows the
divergence: the greedy `[A-Z0-9-]+` consumes the section suffix, so the
code extracts `"HIST-1700-07"`, not the documented `"HIST-1700"`; the
suffix-free example and the no-pattern case behave as documented. -/
theorem course_id_extraction_keeps_section_suffix :
    extract_course_id_from_summary "[HIST-1700-07 American History]: Essay 2" = some "HIST-1700-07" ∧
    extract_course_id_from_summary "[IT-3150 Windows Servers]" = some "IT-3150" ∧
    extract_course_id_from_summary "no brackets here" = none ∧
    some "HIST-1700-07" ≠ some "HIST-1700" := by
  refine ⟨by decide, by decide, by decide, by decide⟩

/-! ## C5: corrected -/

/-- Counterexample to C5: `"Lab 3 Report"` is NOT tagged `Lab`. -/
theorem lab_report_not_tagged_lab :
    get_assignment_type_tag "Lab 3 Report" ≠ "Lab" := by decide

/-- C5 amended: the scan is first-match in table order with whole-word
case-insensitive keywords and a default — but `"Lab 3 Report"` is tagged
`Essay`, because `"report"` is an `Essay` keyword and `Essay` precedes
`Lab` in the table (both `"report"` and `"lab"` match as whole words);
`"Collaborative"` gets the default tag, `"lab"` matching only inside a
larger word. -/
theorem type_tag_first_match_in_table_order :
    get_assignment_type_tag "Lab 3 Report" = "Essay" ∧
    get_assignment_type_tag "Collaborative" = DEFAULT_ASSIGNMENT_TYPE_TAG ∧
    hasWholeWord "lab 3 report" "report" = true ∧
    hasWholeWord "lab 3 report" "lab" = true ∧
    hasWholeWord "collaborative" "lab" = false := by
  refine ⟨by decide, by decide, by decide, by decide, by decide⟩

/-! ## C9: corrected -/

/-- Counterexample to C9: a prior record with priority 1 is rebuilt with
priority 5 — `update_vtodo` unconditionally writes `priority 5`
(ical_helpers.py:124) and never reads the prior record's priority. -/
theorem update_overwrites_priority :
    (update_vtodo
      ⟨"canvas-task-a", "Old", none, none, none, none, some (.dt 2026 1 1 0 0 0), none,
        some "NEEDS-ACTION", some 1, none, none, some "h", []⟩
      ⟨"a", some "New", none, none, some "", some "", some "", none, none⟩
      "h2" (.dt 2026 2 2 0 0 0)).priority = some 5 ∧
    (some (5 : Int)) ≠ some (1 : Int) := by
  exact ⟨rfl, by simp⟩

/-- C9 amended: priority is a fixed constant, not a preserved
destination-owned field: both on first creation and on every update the
built record's priority is 5, regardless of the prior record. -/
theorem priority_always_reset_to_five (existing : VTodo) (a : Item) (h : String)
    (now : DTv) :
    (update_vtodo existing a h now).priority = some 5 ∧
    ((assignment_to_vtodo a h now).1).priority = some 5 :=
  ⟨rfl, rfl⟩

/-! ## C2: corrected -/

/-- Counterexample to C2: a prior record with percent-complete 0 does not
keep it — `if original_percent:` (ical_helpers.py:117) is false for the
(valid) value 0, so the property is dropped from the rebuilt record. -/
theorem update_drops_zero_percent_complete :
    (update_vtodo
      ⟨"canvas-task-a", "Old title", none, none, none, none, some (.dt 2026 1 1 0 0 0),
        none, some "COMPLETED", some 5, some 0, some (.dt 2026 1 2 0 0 0), some "h", []⟩
      ⟨"a", some "New title", none, none, some "", some "", some "", none, none⟩
      "h2" (.dt 2026 2 2 0 0 0)).percent_complete = none ∧
    (VTodo.percent_complete
      ⟨"canvas-task-a", "Old title", none, none, none, none, some (.dt 2026 1 1 0 0 0),
        none, some "COMPLETED", some 5, some 0, some (.dt 2026 1 2 0 0 0), some "h", []⟩) = some 0 ∧
    (none : Option Int) ≠ some 0 := by
  exact ⟨rfl, rfl, by simp⟩

/-- C2 amended: on update the rebuilt record carries the prior record's
creation timestamp (when the prior record has one), completion status,
completion timestamp and percent-complete (when present and nonzero —
a stored 0 is dropped by Python truthiness) unchanged, while the title
and the embedded fingerprint come from the new source item. -/
theorem update_preserves_destination_fields (existing : VTodo) (a : Item) (now : DTv)
    (c : DTv) (st : String) (p : Int)
    (hc : existing.created = some c) (hst : existing.status = some st)
    (hp : existing.percent_complete = some p) (hp0 : p ≠ 0) :
    (update_vtodo existing a (compute_item_hash a) now).created = some c ∧
    (update_vtodo existing a (compute_item_hash a) now).status = some st ∧
    (update_vtodo existing a (compute_item_hash a) now).percent_complete = some p ∧
    (update_vtodo existing a (compute_item_hash a) now).completed = existing.completed ∧
    (update_vtodo existing a (compute_item_hash a) now).summary = a.summary.getD "" ∧
    (update_vtodo existing a (compute_item_hash a) now).x_canvas_hash =
      some (compute_item_hash a) := by
  unfold update_vtodo
  refine ⟨by rw [hc], by rw [hst]; rfl, by rw [hp]; simp [hp0], rfl, rfl, rfl⟩

/-- Witness for C2's amended theorem: a prior record with status
`COMPLETED` ("done"), a creation timestamp and percent-complete 100, and
a new item with a changed title: the rebuilt record keeps status, created,
completed and percent, and takes the new title and fingerprint. -/
theorem update_preserves_destination_fields_witness :
    (VTodo.created
        ⟨"canvas-task-a", "Old", none, none, none, none, some (.dt 2026 1 1 0 0 0), none,
          some "COMPLETED", some 5, some 100, some (.dt 2026 1 2 0 0 0), some "h", []⟩ =
      some (.dt 2026 1 1 0 0 0)) ∧
    ((update_vtodo
        ⟨"canvas-task-a", "Old", none, none, none, none, some (.dt 2026 1 1 0 0 0), none,
          some "COMPLETED", some 5, some 100, some (.dt 2026 1 2 0 0 0), some "h", []⟩
        ⟨"a", some "New title", none, none, some "", some "", some "", none, none⟩
        (compute_item_hash ⟨"a", some "New title", none, none, some "", some "", some "", none, none⟩)
        (.dt 2026 2 2 0 0 0)).created = some (.dt 2026 1 1 0 0 0) ∧
      (update_vtodo
        ⟨"canvas-task-a", "Old", none, none, none, none, some (.dt 2026 1 1 0 0 0), none,
          some "COMPLETED", some 5, some 100, some (.dt 2026 1 2 0 0 0), some "h", []⟩
        ⟨"a", some "New title", none, none, some "", some "", some "", none, none⟩
        (compute_item_hash ⟨"a", some "New title", none, none, some "", some "", some "", none, none⟩)
        (.dt 2026 2 2 0 0 0)).status = some "COMPLETED" ∧
      (update_vtodo
        ⟨"canvas-task-a", "Old", none, none, none, none, some (.dt 2026 1 1 0 0 0), none,
          some "COMPLETED", some 5, some 100, some (.dt 2026 1 2 0 0 0), some "h", []⟩
        ⟨"a", some "New title", none, none, some "", some "", some "", none, none⟩
        (compute_item_hash ⟨"a", some "New title", none, none, some "", some "", some "", none, none⟩)
        (.dt 2026 2 2 0 0 0)).percent_complete = some 100 ∧
      (update_vtodo
        ⟨"canvas-task-a", "Old", none, none, none, none, some (.dt 2026 1 1 0 0 0), none,
          some "COMPLETED", some 5, some 100, some (.dt 2026 1 2 0 0 0), some "h", []⟩
        ⟨"a", some "New title", none, none, some "", some "", some "", none, none⟩
        (compute_item_hash ⟨"a", some "New title", none, none, some "", some "", some "", none, none⟩)
        (.dt 2026 2 2 0 0 0)).completed =
        (VTodo.completed
          ⟨"canvas-task-a", "Old", none, none, none, none, some (.dt 2026 1 1 0 0 0), none,
            some "COMPLETED", some 5, some 100, some (.dt 2026 1 2 0 0 0), some "h", []⟩) ∧
      (update_vtodo
        ⟨"canvas-task-a", "Old", none, none, none, none, some (.dt 2026 1 1 0 0 0), none,
          some "COMPLETED", some 5, some 100, some (.dt 2026 1 2 0 0 0), some "h", []⟩
        ⟨"a", some "New title", none, none, some "", some "", some "", none, none⟩
        (compute_item_hash ⟨"a", some "New title", none, none, some "", some "", some "", none, none⟩)
        (.dt 2026 2 2 0 0 0)).summary =
        (Option.getD (some "New title") "") ∧
      (update_vtodo
        ⟨"canvas-task-a", "Old", none, none, none, none, some (.dt 2026 1 1 0 0 0), none,
          some "COMPLETED", some 5, some 100, some (.dt 2026 1 2 0 0 0), some "h", []⟩
        ⟨"a", some "New title", none, none, some "", some "", some "", none, none⟩
        (compute_item_hash ⟨"a", some "New title", none, none, some "", some "", some "", none, none⟩)
        (.dt 2026 2 2 0 0 0)).x_canvas_hash =
        some (compute_item_hash ⟨"a", some "New title", none, none, some "", some "", some "", none, none⟩)) :=
  ⟨rfl,
   update_preserves_destination_fields _ _ _ _ _ _ rfl rfl rfl (by decide)⟩

/-! ## C6: confirmed -/

/-- C6: classification precedence — any in-range item whose summary
matches a no-class keyword is classified `NoClass` (the no-class branch
is checked before the course-id branch, canvas.py:148-153), so in
particular an item with an extractable bracketed course code is still
`NoClass`, never `Assignment`. -/
theorem noclass_precedes_course_id (cfg : SyncConfig) (info : Item)
    (hin : is_within_date_range info cfg.end_date = true)
    (hnc : matches_keywords (info.summary.getD "") cfg.no_class_keywords = true) :
    classify_item cfg info = .NoClass := by
  unfold classify_item
  rw [hin, hnc]
  rfl

/-- Witness for C6: with the default keyword lists, the in-range item
`"[CS-1400 Intro] No Classes Today"` carries an extractable course code
`CS-1400` yet is classified `NoClass`. -/
theorem noclass_precedes_course_id_witness :
    (build_item_info "uid1" "[CS-1400 Intro] No Classes Today" none none "" "" "").course_id =
      some "CS-1400" ∧
    is_within_date_range
      (build_item_info "uid1" "[CS-1400 Intro] No Classes Today" none none "" "" "")
      (SyncConfig.mk default_no_class_keywords default_assignment_keywords [] none).end_date = true ∧
    matches_keywords
      ((build_item_info "uid1" "[CS-1400 Intro] No Classes Today" none none "" "" "").summary.getD "")
      (SyncConfig.mk default_no_class_keywords default_assignment_keywords [] none).no_class_keywords = true ∧
    classify_item
      (SyncConfig.mk default_no_class_keywords default_assignment_keywords [] none)
      (build_item_info "uid1" "[CS-1400 Intro] No Classes Today" none none "" "" "") = .NoClass :=
  ⟨by decide, by decide, by decide,
   noclass_precedes_course_id _ _ (by decide) (by decide)⟩

/-! ## Reconciler lemmas (shared by several claims) -/

theorem processItem_outcome {R : Type} [DecidableEq R] (ifc : StoreIface R)
    (index : List R) (oracle : Oracle) (store : List R) (a : Item) :
    (processItem ifc index oracle store a).1 = itemOutcome ifc index oracle a := by
  rcases hL : lookupExisting ifc.uidr index (ifc.mkuid a) with _ | e
  · simp only [processItem, itemOutcome, hL]
    split <;> rfl
  · simp only [processItem, itemOutcome, hL]
    split
    · rfl
    · split
      · rfl
      · split <;> rfl

theorem syncLoop_outcomes {R : Type} [DecidableEq R] (ifc : StoreIface R)
    (index : List R) (oracle : Oracle) (items : List Item) (store : List R) :
    (syncLoop ifc index oracle items store).1 =
      items.map (itemOutcome ifc index oracle) := by
  induction items generalizing store with
  | nil => rfl
  | cons a rest ih =>
      simp only [syncLoop, List.map_cons]
      rw [processItem_outcome, ih]

theorem filter_removeFirst_ne {R : Type} [DecidableEq R] (s : List R) (e : R)
    (p : R → Bool) (he : p e = false) :
    (removeFirst s e).filter p = s.filter p := by
  induction s with
  | nil => rfl
  | cons t ts ih =>
      by_cases h : t = e
      · subst h
        simp [removeFirst, List.filter_cons, he]
      · simp only [removeFirst, if_neg h, List.filter_cons]
        split
        · rw [ih]
        · exact ih

theorem lookupExisting_congr {R : Type} (uidr : R → String) (s1 s2 : List R)
    (u : String)
    (h : s1.filter (fun t => uidr t = u) = s2.filter (fun t => uidr t = u)) :
    lookupExisting uidr s1 u = lookupExisting uidr s2 u := by
  unfold lookupExisting
  split
  · rfl
  · rw [h]

theorem processItem_frame {R : Type} [DecidableEq R] (ifc : StoreIface R)
    (index : List R) (oracle : Oracle) (store : List R) (a : Item) (u : String)
    (hu : ∀ e h, ifc.uidr (ifc.buildUpd e a h) = ifc.mkuid a)
    (hn : ∀ h, ifc.uidr (ifc.buildNew a h) = ifc.mkuid a)
    (hne : u ≠ ifc.mkuid a) :
    ((processItem ifc index oracle store a).2.2).filter (fun t => ifc.uidr t = u) =
      store.filter (fun t => ifc.uidr t = u) := by
  rcases hL : lookupExisting ifc.uidr index (ifc.mkuid a) with _ | e
  · simp only [processItem, hL]
    split
    · rfl
    · rw [List.filter_append]
      have h1 : ifc.uidr (ifc.buildNew a (compute_item_hash a)) = ifc.mkuid a := hn _
      have h2 : (fun t => decide (ifc.uidr t = u)) (ifc.buildNew a (compute_item_hash a)) = false := by
        simp [h1]
        exact fun hh => hne hh.symm
      simp [List.filter_cons, h2]
  · have he : ifc.uidr e = ifc.mkuid a := lookupExisting_uid ifc.uidr index (ifc.mkuid a) e hL
    have hpe : (fun t => decide (ifc.uidr t = u)) e = false := by
      simp [he]
      exact fun hh => hne hh.symm
    simp only [processItem, hL]
    split
    · rfl
    · split
      · rfl
      · split
        · exact filter_removeFirst_ne store e _ hpe
        · rw [List.filter_append, filter_removeFirst_ne store e _ hpe]
          have h1 : ifc.uidr (ifc.buildUpd e a (compute_item_hash a)) = ifc.mkuid a := hu _ _
          have h2 : (fun t => decide (ifc.uidr t = u)) (ifc.buildUpd e a (compute_item_hash a)) = false := by
            simp [h1]
            exact fun hh => hne hh.symm
          simp [List.filter_cons, h2]

theorem processItem_establishes {R : Type} [DecidableEq R] (ifc : StoreIface R)
    (index : List R) (store : List R) (a : Item)
    (hu : ∀ e h, ifc.uidr (ifc.buildUpd e a h) = ifc.mkuid a)
    (hn : ∀ h, ifc.uidr (ifc.buildNew a h) = ifc.mkuid a)
    (hxu : ∀ e h, ifc.xhash (ifc.buildUpd e a h) = some h)
    (hxn : ∀ h, ifc.xhash (ifc.buildNew a h) = some h)
    (hmk : ifc.mkuid a ≠ "")
    (hfil : store.filter (fun t => ifc.uidr t = ifc.mkuid a) =
            index.filter (fun t => ifc.uidr t = ifc.mkuid a)) :
    (lookupExisting ifc.uidr (processItem ifc index noFailOracle store a).2.2
        (ifc.mkuid a)).map (fun e => (ifc.xhash e).getD "") =
      some (compute_item_hash a) := by
  rcases hL : lookupExisting ifc.uidr index (ifc.mkuid a) with _ | e
  · have hidx : index.filter (fun t => ifc.uidr t = ifc.mkuid a) = [] := by
      unfold lookupExisting at hL
      rw [if_neg hmk] at hL
      exact List.getLast?_eq_none_iff.mp hL
    simp only [processItem, hL, noFailOracle]
    simp only [Bool.false_eq_true, if_false]
    unfold lookupExisting
    rw [if_neg hmk]
    rw [List.filter_append, hfil, hidx]
    have h1 : ifc.uidr (ifc.buildNew a (compute_item_hash a)) = ifc.mkuid a := hn _
    simp [List.filter_cons, h1, hxn]
  · simp only [processItem, hL, noFailOracle]
    split
    · -- unchanged branch; the stored hash already matches
      rename_i hhash
      unfold lookupExisting
      rw [if_neg hmk, hfil]
      unfold lookupExisting at hL
      rw [if_neg hmk] at hL
      rw [hL]
      simp [hhash]
    · -- update branch: the new record lands at the end of the store
      simp only [Bool.false_eq_true, if_false]
      unfold lookupExisting
      rw [if_neg hmk, List.filter_append]
      have h1 : ifc.uidr (ifc.buildUpd e a (compute_item_hash a)) = ifc.mkuid a := hu _ _
      simp [List.filter_cons, h1, List.getLast?_concat, hxu]

theorem syncLoop_frame {R : Type} [DecidableEq R] (ifc : StoreIface R)
    (index : List R) (oracle : Oracle) (items : List Item) (store : List R)
    (u : String)
    (hu : ∀ a e h, ifc.uidr (ifc.buildUpd e a h) = ifc.mkuid a)
    (hn : ∀ a h, ifc.uidr (ifc.buildNew a h) = ifc.mkuid a)
    (hall : ∀ a ∈ items, u ≠ ifc.mkuid a) :
    ((syncLoop ifc index oracle items store).2.2).filter (fun t => ifc.uidr t = u) =
      store.filter (fun t => ifc.uidr t = u) := by
  induction items generalizing store with
  | nil => rfl
  | cons a rest ih =>
      simp only [syncLoop]
      rw [ih _ (fun b hb => hall b (List.mem_cons_of_mem a hb)),
        processItem_frame ifc index oracle store a u (hu a) (hn a)
          (hall a (List.mem_cons_self a rest))]

theorem syncLoop_establishes {R : Type} [DecidableEq R] (ifc : StoreIface R)
    (index : List R) (items : List Item) (store : List R)
    (hu : ∀ a e h, ifc.uidr (ifc.buildUpd e a h) = ifc.mkuid a)
    (hn : ∀ a h, ifc.uidr (ifc.buildNew a h) = ifc.mkuid a)
    (hxu : ∀ a e h, ifc.xhash (ifc.buildUpd e a h) = some h)
    (hxn : ∀ a h, ifc.xhash (ifc.buildNew a h) = some h)
    (hmk : ∀ a, ifc.mkuid a ≠ "")
    (hnd : (items.map ifc.mkuid).Nodup)
    (hfil : ∀ a ∈ items,
      store.filter (fun t => ifc.uidr t = ifc.mkuid a) =
        index.filter (fun t => ifc.uidr t = ifc.mkuid a)) :
    ∀ a ∈ items,
      (lookupExisting ifc.uidr (syncLoop ifc index noFailOracle items store).2.2
          (ifc.mkuid a)).map (fun e => (ifc.xhash e).getD "") =
        some (compute_item_hash a) := by
  induction items generalizing store with
  | nil => intro a ha; cases ha
  | cons b rest ih =>
      intro a ha
      have hnotin : ifc.mkuid b ∉ rest.map ifc.mkuid := (List.nodup_cons.mp hnd).1
      rcases List.mem_cons.mp ha with rfl | ha2
      · have hest := processItem_establishes ifc index store a (hu a) (hn a) (hxu a)
          (hxn a) (hmk a) (hfil a (List.mem_cons_self a rest))
        have hall : ∀ b2 ∈ rest, ifc.mkuid a ≠ ifc.mkuid b2 := by
          intro b2 hb2 heq
          exact hnotin (heq ▸ List.mem_map_of_mem ifc.mkuid hb2)
        have hframe := syncLoop_frame ifc index noFailOracle rest
          ((processItem ifc index noFailOracle store a).2.2) (ifc.mkuid a) hu hn hall
        simp only [syncLoop]
        rw [lookupExisting_congr ifc.uidr _ _ _ hframe]
        exact hest
      · simp only [syncLoop]
        apply ih _ (List.nodup_cons.mp hnd).2 _ a ha2
        intro b2 hb2
        have hneq : ifc.mkuid b2 ≠ ifc.mkuid b := by
          intro heq
          exact hnotin (heq ▸ List.mem_map_of_mem ifc.mkuid hb2)
        rw [processItem_frame ifc index noFailOracle store b (ifc.mkuid b2) (hu b) (hn b) hneq]
        exact hfil b2 (List.mem_cons_of_mem b hb2)

theorem syncLoop_all_unchanged {R : Type} [DecidableEq R] (ifc : StoreIface R)
    (index : List R) (oracle : Oracle) (items : List Item) (store : List R)
    (h : ∀ a ∈ items,
      (lookupExisting ifc.uidr index (ifc.mkuid a)).map (fun e => (ifc.xhash e).getD "") =
        some (compute_item_hash a)) :
    syncLoop ifc index oracle items store =
      (items.map (fun _ => Outcome.unchanged), [], store) := by
  induction items generalizing store with
  | nil => rfl
  | cons a rest ih =>
      have ha := h a (List.mem_cons_self a rest)
      rcases Option.map_eq_some'.mp ha with ⟨e, hL, hhash⟩
      simp only [syncLoop, processItem, hL]
      rw [if_pos hhash]
      rw [ih _ (fun b hb => h b (List.mem_cons_of_mem a hb))]
      rfl

/-! ## C8: confirmed -/

/-- C8: per-item write failures are isolated.  The first two conjuncts
show that every item's reported outcome is a function of the initial
index, the failure oracle and that item alone — the whole outcome list is
a `map`, so processing always continues over every subsequent item and a
failure for item A can never change what happens to item B.  The last two
conjuncts show that an item whose delete or create call raises is itself
reported as failed (`updateFailed`/`addFailed`), caught at single-item
scope. -/
theorem per_item_write_failures_isolated (assignments no_class_events : List Item)
    (oracle : Oracle) (now : DTv) (todoStore : List VTodo) (eventStore : List VEvent) :
    ((sync_to_caldav assignments no_class_events oracle now todoStore eventStore).taskOutcomes =
        assignments.map (itemOutcome (taskIface now) todoStore oracle)) ∧
    ((sync_to_caldav assignments no_class_events oracle now todoStore eventStore).eventOutcomes =
        no_class_events.map (itemOutcome (eventIface now) eventStore oracle)) ∧
    (∀ a e, lookupExisting VTodo.uid todoStore (taskUid a) = some e →
       ¬(e.x_canvas_hash.getD "" = compute_item_hash a) →
       (oracle.deleteFails e.uid = true ∨
         (oracle.deleteFails e.uid = false ∧
          oracle.saveFails (update_vtodo e a (compute_item_hash a) now).uid = true)) →
       itemOutcome (taskIface now) todoStore oracle a = .updateFailed) ∧
    (∀ a, lookupExisting VTodo.uid todoStore (taskUid a) = none →
       oracle.saveFails ((assignment_to_vtodo a (compute_item_hash a) now).1).uid = true →
       itemOutcome (taskIface now) todoStore oracle a = .addFailed) := by
  refine ⟨?_, ?_, ?_, ?_⟩
  · simp only [sync_to_caldav]
    exact syncLoop_outcomes _ _ _ _ _
  · simp only [sync_to_caldav]
    exact syncLoop_outcomes _ _ _ _ _
  · intro a e hL hne hfail
    simp only [itemOutcome, taskIface, hL]
    rw [if_neg hne]
    rcases hfail with hd | ⟨hd, hs⟩
    · rw [if_pos hd]
    · rw [if_neg (by simp [hd]), if_pos hs]
  · intro a hL hs
    simp only [itemOutcome, taskIface, hL]
    rw [if_pos hs]

/-- Witness for C8: with one stale existing record for item `a`, an
oracle that makes exactly the deletion of that record raise, and items
`a` then `b`, the run reports `a` as `updateFailed` and still adds `b`. -/
theorem per_item_write_failures_isolated_witness :
    ((sync_to_caldav
        [⟨"a", some "A", none, none, some "", some "", some "", none, none⟩,
         ⟨"b", some "B", none, none, some "", some "", some "", none, none⟩] []
        ⟨fun u => u = "canvas-task-a", fun _ => false⟩ (.dt 2026 1 1 0 0 0)
        [⟨"canvas-task-a", "Old", none, none, none, none, none, none,
          some "NEEDS-ACTION", some 5, none, none, some "stale", []⟩] []).taskOutcomes =
      [⟨"a", some "A", none, none, some "", some "", some "", none, none⟩,
       ⟨"b", some "B", none, none, some "", some "", some "", none, none⟩].map
        (itemOutcome (taskIface (.dt 2026 1 1 0 0 0))
          [⟨"canvas-task-a", "Old", none, none, none, none, none, none,
            some "NEEDS-ACTION", some 5, none, none, some "stale", []⟩]
          ⟨fun u => u = "canvas-task-a", fun _ => false⟩)) ∧
    (itemOutcome (taskIface (.dt 2026 1 1 0 0 0))
        [⟨"canvas-task-a", "Old", none, none, none, none, none, none,
          some "NEEDS-ACTION", some 5, none, none, some "stale", []⟩]
        ⟨fun u => u = "canvas-task-a", fun _ => false⟩
        ⟨"a", some "A", none, none, some "", some "", some "", none, none⟩ = .updateFailed) ∧
    (itemOutcome (taskIface (.dt 2026 1 1 0 0 0))
        [⟨"canvas-task-a", "Old", none, none, none, none, none, none,
          some "NEEDS-ACTION", some 5, none, none, some "stale", []⟩]
        ⟨fun u => u = "canvas-task-a", fun _ => false⟩
        ⟨"b", some "B", none, none, some "", some "", some "", none, none⟩ = .added) :=
  ⟨(per_item_write_failures_isolated _ _ _ _ _ _).1,
   (per_item_write_failures_isolated
      [⟨"a", some "A", none, none, some "", some "", some "", none, none⟩,
       ⟨"b", some "B", none, none, some "", some "", some "", none, none⟩] []
      ⟨fun u => u = "canvas-task-a", fun _ => false⟩ (.dt 2026 1 1 0 0 0)
      [⟨"canvas-task-a", "Old", none, none, none, none, none, none,
        some "NEEDS-ACTION", some 5, none, none, some "stale", []⟩] []).2.2.1
      ⟨"a", some "A", none, none, some "", some "", some "", none, none⟩
      ⟨"canvas-task-a", "Old", none, none, none, none, none, none,
        some "NEEDS-ACTION", some 5, none, none, some "stale", []⟩
      (by decide) (by decide) (Or.inl (by decide)),
   by decide⟩

/-! ## C1: confirmed -/

/-- C1: reconciliation is idempotent.  The first two conjuncts are the
per-item property for tasks and events: an item whose indexed remote
record stores exactly the freshly computed fingerprint is reported
`unchanged` with no store operation (no delete, no create) and the store
untouched.  The last conjunct is the consequence: for any starting
stores, running the reconciler twice over the same classified items
(with per-item-unique destination identifiers, a failure-free first run,
and an untouched destination in between) performs zero writes on the
second run and reports every item unchanged, with both stores unchanged. -/
theorem reconcile_idempotent (assignments no_class_events : List Item)
    (todoStore : List VTodo) (eventStore : List VEvent) (now1 now2 : DTv)
    (oracle2 : Oracle)
    (hnd1 : (assignments.map taskUid).Nodup)
    (hnd2 : (no_class_events.map eventUid).Nodup) :
    (∀ (index store : List VTodo) (oracle : Oracle) (a : Item) (e : VTodo),
       lookupExisting VTodo.uid index (taskUid a) = some e →
       e.x_canvas_hash.getD "" = compute_item_hash a →
       processItem (taskIface now1) index oracle store a = (.unchanged, [], store)) ∧
    (∀ (index store : List VEvent) (oracle : Oracle) (a : Item) (e : VEvent),
       lookupExisting VEvent.uid index (eventUid a) = some e →
       e.x_canvas_hash.getD "" = compute_item_hash a →
       processItem (eventIface now1) index oracle store a = (.unchanged, [], store)) ∧
    ((sync_to_caldav assignments no_class_events oracle2 now2
        (sync_to_caldav assignments no_class_events noFailOracle now1 todoStore eventStore).todoStore
        (sync_to_caldav assignments no_class_events noFailOracle now1 todoStore eventStore).eventStore).taskOutcomes =
        assignments.map (fun _ => Outcome.unchanged) ∧
     (sync_to_caldav assignments no_class_events oracle2 now2
        (sync_to_caldav assignments no_class_events noFailOracle now1 todoStore eventStore).todoStore
        (sync_to_caldav assignments no_class_events noFailOracle now1 todoStore eventStore).eventStore).eventOutcomes =
        no_class_events.map (fun _ => Outcome.unchanged) ∧
     (sync_to_caldav assignments no_class_events oracle2 now2
        (sync_to_caldav assignments no_class_events noFailOracle now1 todoStore eventStore).todoStore
        (sync_to_caldav assignments no_class_events noFailOracle now1 todoStore eventStore).eventStore).taskOps = [] ∧
     (sync_to_caldav assignments no_class_events oracle2 now2
        (sync_to_caldav assignments no_class_events noFailOracle now1 todoStore eventStore).todoStore
        (sync_to_caldav assignments no_class_events noFailOracle now1 todoStore eventStore).eventStore).eventOps = [] ∧
     (sync_to_caldav assignments no_class_events oracle2 now2
        (sync_to_caldav assignments no_class_events noFailOracle now1 todoStore eventStore).todoStore
        (sync_to_caldav assignments no_class_events noFailOracle now1 todoStore eventStore).eventStore).todoStore =
        (sync_to_caldav assignments no_class_events noFailOracle now1 todoStore eventStore).todoStore ∧
     (sync_to_caldav assignments no_class_events oracle2 now2
        (sync_to_caldav assignments no_class_events noFailOracle now1 todoStore eventStore).todoStore
        (sync_to_caldav assignments no_class_events noFailOracle now1 todoStore eventStore).eventStore).eventStore =
        (sync_to_caldav assignments no_class_events noFailOracle now1 todoStore eventStore).eventStore) := by
  refine ⟨?_, ?_, ?_⟩
  · intro index store oracle a e hL hh
    simp only [processItem, taskIface, hL]
    rw [if_pos hh]
  · intro index store oracle a e hL hh
    simp only [processItem, eventIface, hL]
    rw [if_pos hh]
  · have hest1 := syncLoop_establishes (taskIface now1) todoStore assignments todoStore
      (fun _ _ _ => rfl) (fun _ _ => rfl) (fun _ _ _ => rfl) (fun _ _ => rfl)
      (fun a => create_uid_ne_empty a.uid "task") hnd1 (fun _ _ => rfl)
    have hest2 := syncLoop_establishes (eventIface now1) eventStore no_class_events eventStore
      (fun _ _ _ => rfl) (fun _ _ => rfl) (fun _ _ _ => rfl) (fun _ _ => rfl)
      (fun a => create_uid_ne_empty a.uid "event") hnd2 (fun _ _ => rfl)
    have hall1 := syncLoop_all_unchanged (taskIface now2)
      ((syncLoop (taskIface now1) todoStore noFailOracle assignments todoStore).2.2) oracle2
      assignments
      ((syncLoop (taskIface now1) todoStore noFailOracle assignments todoStore).2.2) hest1
    have hall2 := syncLoop_all_unchanged (eventIface now2)
      ((syncLoop (eventIface now1) eventStore noFailOracle no_class_events eventStore).2.2) oracle2
      no_class_events
      ((syncLoop (eventIface now1) eventStore noFailOracle no_class_events eventStore).2.2) hest2
    simp only [sync_to_caldav]
    rw [hall1, hall2]
    exact ⟨rfl, rfl, rfl, rfl, rfl, rfl⟩

/-- Witness for C1: one assignment and one no-class item against empty
stores — the hypotheses (pairwise-distinct destination identifiers) hold
and the second run reports everything unchanged with no operations. -/
theorem reconcile_idempotent_witness :
    (([⟨"a", some "A", none, none, some "", some "", some "", none, none⟩].map taskUid).Nodup) ∧
    (([⟨"b", some "NB", none, none, some "", some "", some "", none, none⟩].map eventUid).Nodup) ∧
    ((sync_to_caldav
        [⟨"a", some "A", none, none, some "", some "", some "", none, none⟩]
        [⟨"b", some "NB", none, none, some "", some "", some "", none, none⟩]
        noFailOracle (.dt 2026 1 2 0 0 0)
        (sync_to_caldav
          [⟨"a", some "A", none, none, some "", some "", some "", none, none⟩]
          [⟨"b", some "NB", none, none, some "", some "", some "", none, none⟩]
          noFailOracle (.dt 2026 1 1 0 0 0) [] []).todoStore
        (sync_to_caldav
          [⟨"a", some "A", none, none, some "", some "", some "", none, none⟩]
          [⟨"b", some "NB", none, none, some "", some "", some "", none, none⟩]
          noFailOracle (.dt 2026 1 1 0 0 0) [] []).eventStore).taskOutcomes =
      ([(⟨"a", some "A", none, none, some "", some "", some "", none, none⟩ : Item)]).map
        (fun _ => Outcome.unchanged) ∧
     (sync_to_caldav
        [⟨"a", some "A", none, none, some "", some "", some "", none, none⟩]
        [⟨"b", some "NB", none, none, some "", some "", some "", none, none⟩]
        noFailOracle (.dt 2026 1 2 0 0 0)
        (sync_to_caldav
          [⟨"a", some "A", none, none, some "", some "", some "", none, none⟩]
          [⟨"b", some "NB", none, none, some "", some "", some "", none, none⟩]
          noFailOracle (.dt 2026 1 1 0 0 0) [] []).todoStore
        (sync_to_caldav
          [⟨"a", some "A", none, none, some "", some "", some "", none, none⟩]
          [⟨"b", some "NB", none, none, some "", some "", some "", none, none⟩]
          noFailOracle (.dt 2026 1 1 0 0 0) [] []).eventStore).eventOutcomes =
      ([(⟨"b", some "NB", none, none, some "", some "", some "", none, none⟩ : Item)]).map
        (fun _ => Outcome.unchanged) ∧
     (sync_to_caldav
        [⟨"a", some "A", none, none, some "", some "", some "", none, none⟩]
        [⟨"b", some "NB", none, none, some "", some "", some "", none, none⟩]
        noFailOracle (.dt 2026 1 2 0 0 0)
        (sync_to_caldav
          [⟨"a", some "A", none, none, some "", some "", some "", none, none⟩]
          [⟨"b", some "NB", none, none, some "", some "", some "", none, none⟩]
          noFailOracle (.dt 2026 1 1 0 0 0) [] []).todoStore
        (sync_to_caldav
          [⟨"a", some "A", none, none, some "", some "", some "", none, none⟩]
          [⟨"b", some "NB", none, none, some "", some "", some "", none, none⟩]
          noFailOracle (.dt 2026 1 1 0 0 0) [] []).eventStore).taskOps = [] ∧
     (sync_to_caldav
        [⟨"a", some "A", none, none, some "", some "", some "", none, none⟩]
        [⟨"b", some "NB", none, none, some "", some "", some "", none, none⟩]
        noFailOracle (.dt 2026 1 2 0 0 0)
        (sync_to_caldav
          [⟨"a", some "A", none, none, some "", some "", some "", none, none⟩]
          [⟨"b", some "NB", none, none, some "", some "", some "", none, none⟩]
          noFailOracle (.dt 2026 1 1 0 0 0) [] []).todoStore
        (sync_to_caldav
          [⟨"a", some "A", none, none, some "", some "", some "", none, none⟩]
          [⟨"b", some "NB", none, none, some "", some "", some "", none, none⟩]
          noFailOracle (.dt 2026 1 1 0 0 0) [] []).eventStore).eventOps = [] ∧
     (sync_to_caldav
        [⟨"a", some "A", none, none, some "", some "", some "", none, none⟩]
        [⟨"b", some "NB", none, none, some "", some "", some "", none, none⟩]
        noFailOracle (.dt 2026 1 2 0 0 0)
        (sync_to_caldav
          [⟨"a", some "A", none, none, some "", some "", some "", none, none⟩]
          [⟨"b", some "NB", none, none, some "", some "", some "", none, none⟩]
          noFailOracle (.dt 2026 1 1 0 0 0) [] []).todoStore
        (sync_to_caldav
          [⟨"a", some "A", none, none, some "", some "", some "", none, none⟩]
          [⟨"b", some "NB", none, none, some "", some "", some "", none, none⟩]
          noFailOracle (.dt 2026 1 1 0 0 0) [] []).eventStore).todoStore =
      (sync_to_caldav
        [⟨"a", some "A", none, none, some "", some "", some "", none, none⟩]
        [⟨"b", some "NB", none, none, some "", some "", some "", none, none⟩]
        noFailOracle (.dt 2026 1 1 0 0 0) [] []).todoStore ∧
     (sync_to_caldav
        [⟨"a", some "A", none, none, some "", some "", some "", none, none⟩]
        [⟨"b", some "NB", none, none, some "", some "", some "", none, none⟩]
        noFailOracle (.dt 2026 1 2 0 0 0)
        (sync_to_caldav
          [⟨"a", some "A", none, none, some "", some "", some "", none, none⟩]
          [⟨"b", some "NB", none, none, some "", some "", some "", none, none⟩]
          noFailOracle (.dt 2026 1 1 0 0 0) [] []).todoStore
        (sync_to_caldav
          [⟨"a", some "A", none, none, some "", some "", some "", none, none⟩]
          [⟨"b", some "NB", none, none, some "", some "", some "", none, none⟩]
          noFailOracle (.dt 2026 1 1 0 0 0) [] []).eventStore).eventStore =
      (sync_to_caldav
        [⟨"a", some "A", none, none, some "", some "", some "", none, none⟩]
        [⟨"b", some "NB", none, none, some "", some "", some "", none, none⟩]
        noFailOracle (.dt 2026 1 1 0 0 0) [] []).eventStore) :=
  ⟨by decide, by decide,
   (reconcile_idempotent
      [(⟨"a", some "A", none, none, some "", some "", some "", none, none⟩ : Item)]
      [(⟨"b", some "NB", none, none, some "", some "", some "", none, none⟩ : Item)]
      [] [] (DTv.dt 2026 1 1 0 0 0) (DTv.dt 2026 1 2 0 0 0) noFailOracle
      (by decide) (by decide)).2.2⟩
